import Mathlib

/-!
Shallow embedding of the dispatch-and-aggregation subsystem of
src/qualitybase/services/utils.py: result aggregation and rendering
(summarize_results, format_results_table, format_results_json), the
process executor (run_command) and the command dispatcher
(run_service_command), together with proofs of the specified
properties.
-/

namespace QualityBase

/-- ANSI color codes from utils.py (non-Windows values). -/
def GREEN : String := "\x1b[92m"

/-- ANSI red. -/
def RED : String := "\x1b[91m"

/-- ANSI yellow. -/
def YELLOW : String := "\x1b[93m"

/-- ANSI blue. -/
def BLUE : String := "\x1b[94m"

/-- ANSI reset code. -/
def NC : String := "\x1b[0m"

/-- An observable print event: print_info, print_error (stderr), print_warning,
and the diagnostic trace emitted by traceback.print_exc(). -/
inductive PrintEvent where
  | info (s : String)
  | err (s : String)
  | warn (s : String)
  | trace
deriving Repr, DecidableEq

/-- A structured result value: a Python dict whose recognized keys are
status, details, errors and warnings. Each field is an Option because the
source reads every key with dict.get and a default, so any key may be absent. -/
structure ResultDict where
  status : Option Bool
  details : Option String
  errors : Option Nat
  warnings : Option Nat
deriving Repr, DecidableEq

/-- A ToolResult is either a plain boolean or a structured dict, matching the
isinstance(result, dict) dispatch in the source. -/
inductive ToolResult where
  | plain (b : Bool)
  | dict (d : ResultDict)
deriving Repr, DecidableEq

/-- A ResultSet: an insertion-ordered mapping from tool name to ToolResult,
modelled as an association list in insertion order. -/
abbrev ResultSet := List (String × ToolResult)

/-- Summary statistics returned by summarize_results. The success rate is
modelled exactly in the rationals. -/
structure Summary where
  total : Nat
  passed : Nat
  failed : Nat
  success_rate : ℚ
  total_errors : Nat
  total_warnings : Nat
deriving Repr, DecidableEq

/-- One iteration of the loop in summarize_results: reads status with default
False, adds the errors and warnings counts for dict results (default 0), and
increments passed or failed according to status. -/
def summarizeStep : Nat × Nat × Nat × Nat → String × ToolResult → Nat × Nat × Nat × Nat
  | (passed, failed, errs, warns), (_, .plain b) =>
      if b then (passed + 1, failed, errs, warns)
      else (passed, failed + 1, errs, warns)
  | (passed, failed, errs, warns), (_, .dict d) =>
      if d.status.getD false then
        (passed + 1, failed, errs + d.errors.getD 0, warns + d.warnings.getD 0)
      else
        (passed, failed + 1, errs + d.errors.getD 0, warns + d.warnings.getD 0)

/-- summarize_results from utils.py: total is the number of entries, the loop
accumulates passed, failed, total_errors and total_warnings, and the success
rate is passed / total * 100 when total is positive, else 0. -/
def summarize_results (results : ResultSet) : Summary :=
  { total := results.length
    passed := (results.foldl summarizeStep (0, 0, 0, 0)).1
    failed := (results.foldl summarizeStep (0, 0, 0, 0)).2.1
    success_rate :=
      if 0 < results.length then
        ((results.foldl summarizeStep (0, 0, 0, 0)).1 : ℚ) / (results.length : ℚ) * 100
      else 0
    total_errors := (results.foldl summarizeStep (0, 0, 0, 0)).2.2.1
    total_warnings := (results.foldl summarizeStep (0, 0, 0, 0)).2.2.2 }

/-- Python str.ljust / format spec with a < fill: pad with spaces on the right
up to the width, and leave the string unchanged when it is already at least
that long. It never truncates. -/
def pyLjust (s : String) (w : Nat) : String :=
  s ++ String.mk (List.replicate (w - s.length) ' ')

/-- The pass or fail glyph used in the status column of the table. -/
def statusGlyph (b : Bool) : String :=
  if b then GREEN ++ "✓ PASS" ++ NC else RED ++ "✗ FAIL" ++ NC

/-- The status a result contributes: dict results read the status key with
default False, plain results are coerced with bool(). -/
def statusOf : ToolResult → Bool
  | .plain b => b
  | .dict d => d.status.getD false

/-- The details text computed per row in format_results_table: for dict
results, when the errors or warnings count is nonzero the details text is
overridden with the counts; otherwise the stored details (default empty).
Plain results contribute empty details. -/
def detailsFor : ToolResult → String
  | .plain _ => ""
  | .dict d =>
      if d.errors.getD 0 ≠ 0 ∨ d.warnings.getD 0 ≠ 0 then
        "Errors: " ++ toString (d.errors.getD 0) ++ ", Warnings: " ++ toString (d.warnings.getD 0)
      else d.details.getD ""

/-- One row of the table produced by format_results_table: the tool name
left-justified to the tool column width, optionally the status glyph
left-justified to width 10 + 9 (9 extra positions for the ANSI codes), and
the details text left-justified to width 50. -/
def rowFor (tool_width : Nat) (show_status : Bool) (tool : String) (result : ToolResult) : String :=
  (if show_status then
      pyLjust tool tool_width ++ " " ++ pyLjust (statusGlyph (statusOf result)) (10 + 9)
    else pyLjust tool tool_width)
  ++ " " ++ pyLjust (detailsFor result) 50

/-- format_results_table from utils.py. On an empty ResultSet the source
raises ValueError, because the tool column width takes max() over the keys
of an empty mapping; this is modelled as none. Otherwise the lines are the
optional title block, the header, a dash separator, and one row per entry,
joined with newlines. -/
def format_results_table (results : ResultSet) (title : Option String) (show_status : Bool) :
    Option String :=
  match results with
  | [] => none
  | r :: rs =>
      let titleLines :=
        match title with
        | some t => ["\n" ++ t, String.mk (List.replicate 70 '=')]
        | none => []
      let tool_width0 := ((r :: rs).map (fun p => p.1.length)).foldl max 0 + 2
      let tool_width := if tool_width0 < 20 then 20 else tool_width0
      let header0 := pyLjust "Tool" tool_width
      let header1 := if show_status then header0 ++ " " ++ pyLjust "Status" 10 else header0
      let header := header1 ++ " " ++ pyLjust "Details" 50
      let rows := (r :: rs).map (fun p => rowFor tool_width show_status p.1 p.2)
      some (String.intercalate "\n"
        (titleLines ++ [header, String.mk (List.replicate 70 '-')] ++ rows))

/-- A JSON value, covering the shapes format_results_json can serialize. -/
inductive Json where
  | bool (b : Bool)
  | num (n : Int)
  | str (s : String)
  | obj (fields : List (String × Json))
deriving Repr

/-- The keys of a JSON object, in order. -/
def Json.keys : Json → List String
  | .obj fields => fields.map Prod.fst
  | _ => []

/-- The present keys of a ResultDict as JSON object fields. A Python dict
carries its own insertion order; this model lists whichever of the four
recognized keys are present in the fixed order status, details, errors,
warnings. -/
def dictFields (d : ResultDict) : List (String × Json) :=
  (match d.status with | some b => [("status", Json.bool b)] | none => [])
  ++ (match d.details with | some s => [("details", Json.str s)] | none => [])
  ++ (match d.errors with | some n => [("errors", Json.num n)] | none => [])
  ++ (match d.warnings with | some n => [("warnings", Json.num n)] | none => [])

/-- The conversion in format_results_json: a dict result is passed through
unchanged, and a plain boolean becomes an object with the single key
status. -/
def toJsonEntry : ToolResult → Json
  | .dict d => Json.obj (dictFields d)
  | .plain b => Json.obj [("status", Json.bool b)]

/-- The json_results mapping built by format_results_json before
serialization, in the insertion order of the ResultSet. -/
def format_results_json_norm (results : ResultSet) : List (String × Json) :=
  results.map (fun p => (p.1, toJsonEntry p.2))

/-- A run of n spaces. -/
def spaces (n : Nat) : String :=
  String.mk (List.replicate n ' ')

/-- One hexadecimal digit, lowercase. -/
def hexDigit (n : Nat) : Char :=
  "0123456789abcdef".data.getD n '0'

/-- Four lowercase hexadecimal digits, as json.dumps prints in escapes. -/
def hex4 (n : Nat) : String :=
  String.mk [hexDigit (n / 4096 % 16), hexDigit (n / 256 % 16), hexDigit (n / 16 % 16),
    hexDigit (n % 16)]

/-- Escape one character the way json.dumps does with its default
ensure_ascii setting: the two-character escapes for quote, backslash and
common control characters, a numeric escape for other control characters and
for all characters outside printable ASCII, with a surrogate pair beyond the
basic multilingual plane. -/
def jsonEscapeChar (c : Char) : String :=
  if c = '"' then "\\\""
  else if c = '\\' then "\\\\"
  else if c = '\n' then "\\n"
  else if c = '\t' then "\\t"
  else if c = '\r' then "\\r"
  else if c = '\x08' then "\\b"
  else if c = '\x0c' then "\\f"
  else if c.toNat < 32 ∨ 126 < c.toNat then
    if 65535 < c.toNat then
      "\\u" ++ hex4 (55296 + (c.toNat - 65536) / 1024) ++ "\\u" ++ hex4 (56320 + (c.toNat - 65536) % 1024)
    else "\\u" ++ hex4 c.toNat
  else String.singleton c

/-- Escape a whole string for JSON serialization. -/
def jsonEscape (s : String) : String :=
  String.join (s.data.map jsonEscapeChar)

mutual

/-- Serialize a JSON value the way json.dumps(obj, indent=2) does, given the
current nesting level. -/
def jsonRender (lvl : Nat) : Json → String
  | .bool b => if b then "true" else "false"
  | .num n => toString n
  | .str s => "\"" ++ jsonEscape s ++ "\""
  | .obj [] => "\x7b\x7d"
  | .obj (f :: fs) =>
      "\x7b\n" ++ jsonRenderFields (lvl + 1) f fs ++ "\n" ++ spaces (2 * lvl) ++ "\x7d"
termination_by j => sizeOf j

/-- Serialize a nonempty list of object fields, one per line, separated by
commas, each indented two spaces per nesting level. -/
def jsonRenderFields (lvl : Nat) : (String × Json) → List (String × Json) → String
  | (k, v), [] => spaces (2 * lvl) ++ "\"" ++ jsonEscape k ++ "\": " ++ jsonRender lvl v
  | (k, v), f :: fs =>
      spaces (2 * lvl) ++ "\"" ++ jsonEscape k ++ "\": " ++ jsonRender lvl v ++ ",\n"
        ++ jsonRenderFields lvl f fs
termination_by f fs => sizeOf f + sizeOf fs

end

/-- format_results_json from utils.py: build the json_results mapping, then
serialize it with 2-space indentation. -/
def format_results_json (results : ResultSet) : String :=
  jsonRender 0 (Json.obj (format_results_json_norm results))

/-- The behavior of the operating system when subprocess.run is asked to
spawn the command: either the program runs to completion with an exit code
and a standard output text, or the program is absent from the search path and
subprocess.run raises FileNotFoundError. -/
inductive SpawnOutcome where
  | completed (returncode : Int) (stdout : String)
  | notFound
deriving Repr, DecidableEq

/-- The value and observable output of one run_command call. -/
structure RunResult where
  success : Bool
  output : Option String
  printed : List PrintEvent
deriving Repr, DecidableEq

/-- run_command from utils.py: print the command line, then spawn. A missing
program is reported and becomes (False, None); with check set, a nonzero exit
is reported and becomes (False, captured output); otherwise the result is
(returncode == 0, captured output). Output is captured only when
capture_output is set. The function always returns: no condition escapes
its boundary. -/
def run_command (cmd : List String) (check capture_output : Bool) (spawn : SpawnOutcome) :
    RunResult :=
  let pre := [PrintEvent.info ("Running: " ++ String.intercalate " " cmd)]
  match spawn with
  | .notFound =>
      ⟨false, none, pre ++ [PrintEvent.err ("Command not found: " ++ cmd.headD "")]⟩
  | .completed rc stdout =>
      let output := if capture_output then some stdout else none
      if check ∧ rc ≠ 0 then
        ⟨false, output, pre ++ [PrintEvent.err ("Command exited with code " ++ toString rc)]⟩
      else
        ⟨decide (rc = 0), output, pre⟩

/-- The observable outcome of invoking the wrapped task: it returns a
boolean, raises KeyboardInterrupt, raises an Exception-derived condition
(carrying its message), or raises a BaseException outside the Exception
hierarchy, such as SystemExit, which the except Exception clause of the
source does not catch. -/
inductive TaskOutcome where
  | ret (success : Bool)
  | keyboardInterrupt
  | exception (msg : String)
  | baseException (msg : String)
deriving Repr, DecidableEq

/-- The result of a run_service_command call: either it returns an exit code
after the given prints, or a condition propagates to the caller. -/
inductive DispatchOutcome where
  | exits (code : Nat) (printed : List PrintEvent)
  | propagates (msg : String)
deriving Repr, DecidableEq

/-- Whether the dispatcher returned an exit code rather than letting a
condition escape. -/
def DispatchOutcome.isExit : DispatchOutcome → Bool
  | .exits _ _ => true
  | .propagates _ => false

/-- run_service_command from utils.py: call the task and return 0 or 1 from
its boolean; on KeyboardInterrupt print the cancellation notice and return
130; on Exception print the error line and the diagnostic trace and return 1.
A BaseException outside the Exception hierarchy matches neither handler and
propagates. -/
def run_service_command {α : Type} (command_func : α → TaskOutcome) (args : α) :
    DispatchOutcome :=
  match command_func args with
  | .ret success => .exits (if success then 0 else 1) []
  | .keyboardInterrupt => .exits 130 [PrintEvent.warn "\nOperation cancelled by user."]
  | .exception m => .exits 1 [PrintEvent.err ("Error: " ++ m), PrintEvent.trace]
  | .baseException m => .propagates m

/-- Padding to a width the string already meets or exceeds changes nothing. -/
theorem pyLjust_of_le (s : String) (w : Nat) (h : w ≤ s.length) : pyLjust s w = s := by
  have h0 : w - s.length = 0 := Nat.sub_eq_zero_of_le h
  cases s with
  | mk data =>
      show String.mk (data ++ (List.replicate (w - (String.mk data).length) ' ')) = String.mk data
      rw [h0]
      simp

/-- Each loop iteration of summarize_results increments passed + failed by
exactly one. -/
theorem summarizeStep_passed_failed (acc : Nat × Nat × Nat × Nat) (e : String × ToolResult) :
    (summarizeStep acc e).1 + (summarizeStep acc e).2.1 = acc.1 + acc.2.1 + 1 := by
  obtain ⟨p, f, er, w⟩ := acc
  obtain ⟨nm, r⟩ := e
  cases r with
  | plain b => cases b <;> simp [summarizeStep] <;> omega
  | dict d => cases h : d.status.getD false <;> simp [summarizeStep, h] <;> omega

/-- Over the whole loop, passed + failed grows by the number of entries. -/
theorem foldl_summarizeStep_counts (l : ResultSet) (acc : Nat × Nat × Nat × Nat) :
    (l.foldl summarizeStep acc).1 + (l.foldl summarizeStep acc).2.1
      = acc.1 + acc.2.1 + l.length := by
  induction l generalizing acc with
  | nil => simp
  | cons e t ih =>
      rw [List.foldl_cons, ih]
      have h := summarizeStep_passed_failed acc e
      simp only [List.length_cons]
      omega

/-- Claim C2: for every ResultSet, summarize_results satisfies
passed + failed = total, success_rate = 0 when total = 0, and
success_rate = 100 * passed / total when total > 0. -/
theorem summarize_results_invariants (results : ResultSet) :
    (summarize_results results).passed + (summarize_results results).failed
        = (summarize_results results).total
  ∧ ((summarize_results results).total = 0 → (summarize_results results).success_rate = 0)
  ∧ (0 < (summarize_results results).total →
      (summarize_results results).success_rate
        = 100 * ((summarize_results results).passed : ℚ)
            / ((summarize_results results).total : ℚ)) := by
  have hc := foldl_summarizeStep_counts results (0, 0, 0, 0)
  refine ⟨?_, ?_, ?_⟩
  · simpa [summarize_results] using hc
  · intro h0
    have hlen : results.length = 0 := h0
    simp [summarize_results, hlen]
  · intro hpos
    have hlen : 0 < results.length := hpos
    show (if 0 < results.length then
        ((results.foldl summarizeStep (0, 0, 0, 0)).1 : ℚ) / (results.length : ℚ) * 100
      else 0)
      = 100 * ((results.foldl summarizeStep (0, 0, 0, 0)).1 : ℚ) / (results.length : ℚ)
    rw [if_pos hlen, div_mul_eq_mul_div, mul_comm]

/-- Witness for claim C2, at the worked example of the specification. -/
theorem summarize_results_invariants_witness :
    (summarize_results [("lint", ToolResult.plain true),
        ("types", ToolResult.dict ⟨some false, none, some 3, some 1⟩)]).passed
      + (summarize_results [("lint", ToolResult.plain true),
          ("types", ToolResult.dict ⟨some false, none, some 3, some 1⟩)]).failed
      = (summarize_results [("lint", ToolResult.plain true),
          ("types", ToolResult.dict ⟨some false, none, some 3, some 1⟩)]).total
  ∧ (summarize_results [("lint", ToolResult.plain true),
        ("types", ToolResult.dict ⟨some false, none, some 3, some 1⟩)]).success_rate
      = 100 * ((summarize_results [("lint", ToolResult.plain true),
            ("types", ToolResult.dict ⟨some false, none, some 3, some 1⟩)]).passed : ℚ)
          / ((summarize_results [("lint", ToolResult.plain true),
              ("types", ToolResult.dict ⟨some false, none, some 3, some 1⟩)]).total : ℚ) :=
  ⟨(summarize_results_invariants _).1, (summarize_results_invariants _).2.2 (by decide)⟩

/-- Claim C8: a plain-boolean entry and a structured entry with the same
status and zero errors and warnings contribute identically to every field of
the summary, wherever the entry sits in the ResultSet. -/
theorem plain_dict_summary_equiv (pre post : ResultSet) (nm : String) (b : Bool)
    (d : ResultDict) (hs : d.status = some b) (he : d.errors.getD 0 = 0)
    (hw : d.warnings.getD 0 = 0) :
    summarize_results (pre ++ (nm, ToolResult.plain b) :: post)
      = summarize_results (pre ++ (nm, ToolResult.dict d) :: post) := by
  have hstep : ∀ acc : Nat × Nat × Nat × Nat,
      summarizeStep acc (nm, ToolResult.plain b) = summarizeStep acc (nm, ToolResult.dict d) := by
    rintro ⟨p, f, er, w⟩
    simp [summarizeStep, hs, he, hw]
  have hfold :
      (pre ++ (nm, ToolResult.plain b) :: post).foldl summarizeStep (0, 0, 0, 0)
        = (pre ++ (nm, ToolResult.dict d) :: post).foldl summarizeStep (0, 0, 0, 0) := by
    rw [List.foldl_append, List.foldl_append, List.foldl_cons, List.foldl_cons, hstep]
  have hlen : (pre ++ (nm, ToolResult.plain b) :: post).length
      = (pre ++ (nm, ToolResult.dict d) :: post).length := by simp
  unfold summarize_results
  rw [hfold, hlen]

/-- Witness for claim C8, with the plain entry true and the structured entry
carrying only a status key. -/
theorem plain_dict_summary_equiv_witness :
    summarize_results [("lint", ToolResult.plain true)]
      = summarize_results [("lint", ToolResult.dict ⟨some true, none, none, none⟩)] :=
  plain_dict_summary_equiv [] [] "lint" true ⟨some true, none, none, none⟩ rfl rfl rfl

/-- Claim C9: on the empty ResultSet, format_results_table does not return a
rendered table (the source raises ValueError at the max() over the entry
names, modelled as none), while summarize_results returns a summary with
total zero. -/
theorem empty_results_table_vs_summary (title : Option String) (show_status : Bool) :
    format_results_table [] title show_status = none
  ∧ (summarize_results []).total = 0 :=
  ⟨rfl, rfl⟩

/-- Claim C10: a structured entry without a status key is treated as failed
by both consumers: the summarize_results loop increments failed (never
passed) while still accumulating its error and warning counts, and the table
row renders the fail glyph. -/
theorem missing_status_is_failure (p f er w tw : Nat) (nm tool : String) (d : ResultDict)
    (h : d.status = none) :
    summarizeStep (p, f, er, w) (nm, ToolResult.dict d)
      = (p, f + 1, er + d.errors.getD 0, w + d.warnings.getD 0)
  ∧ rowFor tw true tool (ToolResult.dict d)
      = pyLjust tool tw ++ " " ++ pyLjust (statusGlyph false) (10 + 9) ++ " "
          ++ pyLjust (detailsFor (ToolResult.dict d)) 50 := by
  constructor
  · simp [summarizeStep, h]
  · simp [rowFor, statusOf, h]

/-- Witness for claim C10, at a structured entry whose dict has only a
details key. -/
theorem missing_status_is_failure_witness :
    summarizeStep (0, 0, 0, 0) ("mypy", ToolResult.dict ⟨none, some "x", none, none⟩)
      = (0, 0 + 1, 0 + (ResultDict.mk none (some "x") none none).errors.getD 0,
          0 + (ResultDict.mk none (some "x") none none).warnings.getD 0)
  ∧ rowFor 20 true "mypy" (ToolResult.dict ⟨none, some "x", none, none⟩)
      = pyLjust "mypy" 20 ++ " " ++ pyLjust (statusGlyph false) (10 + 9) ++ " "
          ++ pyLjust (detailsFor (ToolResult.dict ⟨none, some "x", none, none⟩)) 50 :=
  missing_status_is_failure 0 0 0 0 20 "mypy" "mypy" ⟨none, some "x", none, none⟩ rfl

/-- Claim C5: when a structured entry carries a nonzero errors count or a
nonzero warnings count, the table row renders the details column as the
override text built from the counts, discarding any caller-supplied details
string. -/
theorem errors_override_details (tw : Nat) (show_status : Bool) (tool : String)
    (d : ResultDict) (h : d.errors.getD 0 ≠ 0 ∨ d.warnings.getD 0 ≠ 0) :
    rowFor tw show_status tool (ToolResult.dict d)
      = (if show_status then
            pyLjust tool tw ++ " " ++ pyLjust (statusGlyph (statusOf (ToolResult.dict d))) (10 + 9)
          else pyLjust tool tw)
        ++ " "
        ++ pyLjust ("Errors: " ++ toString (d.errors.getD 0) ++ ", Warnings: "
            ++ toString (d.warnings.getD 0)) 50 := by
  have hdet : detailsFor (ToolResult.dict d)
      = "Errors: " ++ toString (d.errors.getD 0) ++ ", Warnings: "
          ++ toString (d.warnings.getD 0) := by
    simp [detailsFor, h]
  rw [rowFor, hdet]

/-- Witness for claim C5: a structured entry with caller-supplied details
text and 3 errors and 1 warning renders the override text, not the
caller text. -/
theorem errors_override_details_witness :
    rowFor 20 false "types" (ToolResult.dict ⟨some false, some "custom text", some 3, some 1⟩)
      = pyLjust "types" 20 ++ " " ++ pyLjust ("Errors: " ++ toString 3 ++ ", Warnings: "
          ++ toString 1) 50 := by
  exact errors_override_details 20 false "types" ⟨some false, some "custom text", some 3, some 1⟩
    (by decide)

set_option maxRecDepth 8192 in
/-- Counterexample for claim C3: the claim says a details string longer than
50 characters is truncated to exactly 50 characters in the rendered row, but
the source only left-justifies to a minimum width of 50 and never truncates.
For a 51-character details string the rendered table carries the full
51 characters and differs from the table the truncating specification would
produce. -/
theorem table_truncation_counterexample :
    format_results_table
        [("black", ToolResult.dict ⟨some true, some (String.mk (List.replicate 51 'a')), none, none⟩)]
        none false
      = some (pyLjust "Tool" 20 ++ " " ++ pyLjust "Details" 50 ++ "\n"
          ++ String.mk (List.replicate 70 '-') ++ "\n"
          ++ pyLjust "black" 20 ++ " " ++ String.mk (List.replicate 51 'a'))
  ∧ format_results_table
        [("black", ToolResult.dict ⟨some true, some (String.mk (List.replicate 51 'a')), none, none⟩)]
        none false
      ≠ some (pyLjust "Tool" 20 ++ " " ++ pyLjust "Details" 50 ++ "\n"
          ++ String.mk (List.replicate 70 '-') ++ "\n"
          ++ pyLjust "black" 20 ++ " "
          ++ pyLjust ((String.mk (List.replicate 51 'a')).take 50) 50) := by
  constructor
  · rfl
  · decide

/-- Claim C3 amended: for a details text of 50 or more characters, the row
carries the full details text unmodified; the 50-character details width is
only a padding minimum and no truncation occurs. -/
theorem rowFor_no_truncation (tw : Nat) (show_status : Bool) (tool : String) (r : ToolResult)
    (h : 50 ≤ (detailsFor r).length) :
    rowFor tw show_status tool r
      = (if show_status then
            pyLjust tool tw ++ " " ++ pyLjust (statusGlyph (statusOf r)) (10 + 9)
          else pyLjust tool tw)
        ++ " " ++ detailsFor r := by
  rw [rowFor, pyLjust_of_le _ _ h]

/-- Witness for the amended claim C3, at a 51-character details string. -/
theorem rowFor_no_truncation_witness :
    rowFor 20 false "black"
        (ToolResult.dict ⟨some true, some (String.mk (List.replicate 51 'a')), none, none⟩)
      = pyLjust "black" 20 ++ " "
          ++ detailsFor
            (ToolResult.dict ⟨some true, some (String.mk (List.replicate 51 'a')), none, none⟩) := by
  exact rowFor_no_truncation 20 false "black"
    (ToolResult.dict ⟨some true, some (String.mk (List.replicate 51 'a')), none, none⟩)
    (by decide)

/-- Claim C6: for every argument vector whose program is not found on the
search path, run_command prints the command line, reports a command-not-found
error, and returns success false with absent output; the function returns in
every case, so no condition escapes its boundary. -/
theorem run_command_not_found (cmd : List String) (check capture_output : Bool) :
    run_command cmd check capture_output SpawnOutcome.notFound
      = ⟨false, none,
          [PrintEvent.info ("Running: " ++ String.intercalate " " cmd),
            PrintEvent.err ("Command not found: " ++ cmd.headD "")]⟩ :=
  rfl

/-- Claim C1: the dispatcher maps a task returning true to exit code 0, a
task returning false to exit code 1, a user interruption to exit code 130
after the one-line cancellation notice with no trace, and any
Exception-derived condition to exit code 1 after an error line and the
diagnostic trace. -/
theorem run_service_command_exit_codes {α : Type} (command_func : α → TaskOutcome) (args : α)
    (b : Bool) (m : String) :
    (command_func args = TaskOutcome.ret b →
      run_service_command command_func args = DispatchOutcome.exits (if b then 0 else 1) [])
  ∧ (command_func args = TaskOutcome.keyboardInterrupt →
      run_service_command command_func args
        = DispatchOutcome.exits 130 [PrintEvent.warn "\nOperation cancelled by user."])
  ∧ (command_func args = TaskOutcome.exception m →
      run_service_command command_func args
        = DispatchOutcome.exits 1 [PrintEvent.err ("Error: " ++ m), PrintEvent.trace]) := by
  refine ⟨?_, ?_, ?_⟩ <;> intro h <;> simp [run_service_command, h]

/-- Witness for claim C1: a task that raises a user interruption exits with
code 130 after exactly the cancellation notice. -/
theorem run_service_command_exit_codes_witness :
    run_service_command (fun _ : Unit => TaskOutcome.keyboardInterrupt) ()
      = DispatchOutcome.exits 130 [PrintEvent.warn "\nOperation cancelled by user."] :=
  (run_service_command_exit_codes (fun _ : Unit => TaskOutcome.keyboardInterrupt) () true "").2.1
    rfl

/-- Counterexample for claim C7: the claim says no raised condition
propagates past the dispatcher, but a condition outside the Exception
hierarchy, such as SystemExit, matches neither except clause of the source
and propagates to the caller instead of resolving to an exit code. -/
theorem dispatcher_totality_counterexample :
    run_service_command (fun _ : Unit => TaskOutcome.baseException "SystemExit") ()
      = DispatchOutcome.propagates "SystemExit"
  ∧ DispatchOutcome.isExit
      (run_service_command (fun _ : Unit => TaskOutcome.baseException "SystemExit") ()) = false :=
  ⟨rfl, rfl⟩

/-- Claim C7 amended: for every task whose outcome is a boolean return, a
user interruption, or an Exception-derived condition, the dispatcher resolves
the outcome to exactly one of the exit codes 0, 1 or 130, and nothing
propagates; conditions outside the Exception hierarchy other than a user
interruption, such as SystemExit, propagate past the dispatcher. -/
theorem dispatcher_total_on_catchable {α : Type} (command_func : α → TaskOutcome) (args : α)
    (h : ∀ m, command_func args ≠ TaskOutcome.baseException m) :
    ∃ code printed, run_service_command command_func args = DispatchOutcome.exits code printed
      ∧ (code = 0 ∨ code = 1 ∨ code = 130) := by
  cases hf : command_func args with
  | ret b =>
      cases b
      · exact ⟨1, [], by simp [run_service_command, hf], Or.inr (Or.inl rfl)⟩
      · exact ⟨0, [], by simp [run_service_command, hf], Or.inl rfl⟩
  | keyboardInterrupt =>
      exact ⟨130, [PrintEvent.warn "\nOperation cancelled by user."],
        by simp [run_service_command, hf], Or.inr (Or.inr rfl)⟩
  | exception m =>
      exact ⟨1, [PrintEvent.err ("Error: " ++ m), PrintEvent.trace],
        by simp [run_service_command, hf], Or.inr (Or.inl rfl)⟩
  | baseException m => exact absurd hf (h m)

/-- Witness for the amended claim C7, at a task that returns false. -/
theorem dispatcher_total_on_catchable_witness :
    ∃ code printed,
      run_service_command (fun _ : Unit => TaskOutcome.ret false) ()
        = DispatchOutcome.exits code printed ∧ (code = 0 ∨ code = 1 ∨ code = 130) :=
  dispatcher_total_on_catchable (fun _ : Unit => TaskOutcome.ret false) ()
    (fun _ h => TaskOutcome.noConfusion h)

/-- Counterexample for claim C4: the claim says every entry is normalized to
the structured shape with keys status, details, errors and warnings, but the
source only wraps a plain boolean as an object with the single key status and
passes structured entries through unchanged. For the ResultSet with the one
plain entry lint = true, the serialized and reparsed object for lint has the
single key status, not the four keys, as the rendered 2-space indented JSON
text shows. -/
theorem json_normalization_counterexample :
    format_results_json_norm [("lint", ToolResult.plain true)]
      = [("lint", Json.obj [("status", Json.bool true)])]
  ∧ Json.keys (Json.obj [("status", Json.bool true)]) ≠ ["status", "details", "errors", "warnings"]
  ∧ format_results_json [("lint", ToolResult.plain true)]
      = "\x7b\n  \"lint\": \x7b\n    \"status\": true\n  \x7d\n\x7d" := by
  refine ⟨rfl, by decide, ?_⟩
  simp only [format_results_json, format_results_json_norm, List.map, toJsonEntry, jsonRender,
    jsonRenderFields]
  rfl

/-- Claim C4 amended: format_results_json converts each plain-boolean entry
to an object with the single key status, passes each structured entry through
with exactly its present keys, preserves the insertion order of the tool
names, and serializes the converted mapping with 2-space indentation; parsing
the JSON back therefore reproduces this converted mapping, not a four-key
shape. -/
theorem format_results_json_shape (results : ResultSet) :
    (format_results_json_norm results).map Prod.fst = results.map Prod.fst
  ∧ (∀ nm b, (nm, ToolResult.plain b) ∈ results →
      (nm, Json.obj [("status", Json.bool b)]) ∈ format_results_json_norm results)
  ∧ (∀ nm d, (nm, ToolResult.dict d) ∈ results →
      (nm, Json.obj (dictFields d)) ∈ format_results_json_norm results)
  ∧ format_results_json results
      = jsonRender 0 (Json.obj (format_results_json_norm results)) := by
  refine ⟨?_, ?_, ?_, rfl⟩
  · simp [format_results_json_norm]
  · intro nm b h
    exact List.mem_map.mpr ⟨(nm, ToolResult.plain b), h, rfl⟩
  · intro nm d h
    exact List.mem_map.mpr ⟨(nm, ToolResult.dict d), h, rfl⟩

/-- Witness for the amended claim C4, at a two-entry ResultSet with one plain
and one structured result. -/
theorem format_results_json_shape_witness :
    (format_results_json_norm [("lint", ToolResult.plain true),
        ("types", ToolResult.dict ⟨some false, none, some 3, some 1⟩)]).map Prod.fst
      = [("lint", ToolResult.plain true),
          ("types", ToolResult.dict ⟨some false, none, some 3, some 1⟩)].map Prod.fst
  ∧ ("lint", Json.obj [("status", Json.bool true)])
      ∈ format_results_json_norm [("lint", ToolResult.plain true),
          ("types", ToolResult.dict ⟨some false, none, some 3, some 1⟩)]
  ∧ ("types", Json.obj (dictFields ⟨some false, none, some 3, some 1⟩))
      ∈ format_results_json_norm [("lint", ToolResult.plain true),
          ("types", ToolResult.dict ⟨some false, none, some 3, some 1⟩)] := by
  refine ⟨(format_results_json_shape _).1, ?_, ?_⟩
  · exact (format_results_json_shape _).2.1 "lint" true (by simp)
  · exact (format_results_json_shape _).2.2.1 "types" ⟨some false, none, some 3, some 1⟩ (by simp)

end QualityBase
